import Mathlib

/-!
Verification of the request-dispatch core of the ThingsBoard MCP server
(`src/thingsboard.py`): `get_auth_token`, `make_thingsboard_request` and
`execute_with_permission`.  The Python functions are embedded as pure Lean
functions over an explicit environment (`Ctx`) that supplies the result of
each successive login exchange and transport call, and an explicit state
(`St`) that models the process-global `auth_token` together with an event
trace recording every network interaction in order.  Uncaught Python
exceptions are modelled by the `Except PyExn` result: `Except.error e`
means the call raised `e` past the dispatcher boundary.
-/

namespace TB

/-- JSON scalar values as they appear in query-parameter and body
dictionaries handed to the dispatcher. -/
inductive JVal where
  | str : String → JVal
  | num : Int → JVal
  | bool : Bool → JVal
  | null : JVal
deriving DecidableEq

/-- Query parameters: a Python dict with string keys and scalar values. -/
abbrev Params := List (String × JVal)

/-- Request body: a Python dict with string keys and scalar values. -/
abbrev JsonData := List (String × JVal)

/-- JSON documents as returned by `response.json()`.  The dispatcher passes
bodies through opaquely, so documents are modelled up to one nesting level,
which is all the properties below ever need to distinguish. -/
inductive Json where
  | str : String → Json
  | num : Int → Json
  | bool : Bool → Json
  | null : Json
  | arr : List JVal → Json
  | obj : List (String × JVal) → Json
deriving DecidableEq

/-- Python `repr` of a scalar value, as interpolated into f-strings. -/
def pyRepr : JVal → String
  | JVal.str s => "'" ++ s ++ "'"
  | JVal.num n => toString n
  | JVal.bool true => "True"
  | JVal.bool false => "False"
  | JVal.null => "None"

/-- Python `repr` of a dict, as interpolated into f-strings. -/
def pyReprDict (l : JsonData) : String :=
  "\x7b" ++ String.intercalate ", " (l.map fun kv => "'" ++ kv.1 ++ "': " ++ pyRepr kv.2) ++ "\x7d"

/-- Truthiness of the Python global `auth_token : Optional[str]`:
`not auth_token` is true when it is `None` or the empty string. -/
def tokenFalsy : Option String → Bool
  | none => true
  | some s => s.isEmpty

/-- Truthiness of `json_data : Optional[dict]`: falsy when `None` or `{}`. -/
def jsonDataTruthy : Option JsonData → Bool
  | none => false
  | some l => !l.isEmpty

/-- Result of one HTTP request/response cycle attempted by httpx: either a
response with a status code and decoded body, or a connection-level failure
(DNS, timeout, refusal), which httpx raises as an exception. -/
inductive TransportResult where
  | response : Nat → Json → TransportResult
  | connError : String → TransportResult
deriving DecidableEq

/-- Environment of one dispatcher invocation: the result of the n-th login
exchange (`POST /auth/login`, counted from 0) and of the n-th resource
transport call (counted from 0).  A login result `Except.error d` stands for
any exception the login exchange raised, with detail string `d`. -/
structure Ctx where
  login : Nat → Except String String
  transport : Nat → TransportResult

/-- Python exceptions that the embedded code can raise or catch. -/
inductive PyExn where
  | valueError : String → PyExn
  | httpStatusError : Nat → Json → PyExn
  | connectError : String → PyExn
deriving DecidableEq

/-- Python `str.lower()` on method names (ASCII), character by character. -/
def strToLower (s : String) : String :=
  String.mk (s.data.map Char.toLower)

/-- The `str(e)` rendering of an exception, used in error dictionaries. -/
def exnStr : PyExn → String
  | PyExn.valueError msg => msg
  | PyExn.httpStatusError status _ => "HTTP status error " ++ toString status
  | PyExn.connectError msg => msg

/-- Network events in the order they happen: one login exchange against the
authentication endpoint, or one transport call against the resource URL. -/
inductive Ev where
  | login : Ev
  | transportCall : Ev
deriving DecidableEq

/-- Mutable state threaded through a dispatcher invocation: the process-wide
`auth_token` global, how many login exchanges and transport calls have been
made so far (these index into `Ctx`), and the ordered event trace. -/
structure St where
  token : Option String
  loginCount : Nat
  transportCount : Nat
  events : List Ev
deriving DecidableEq

/-- Outcomes a dispatcher invocation can return (as opposed to raise),
one constructor per distinct dictionary shape produced by the source:
the decoded JSON body passed through as-is, the `{"success": True}` marker
for status 204, the `requires_permission` descriptor, the
`{"error", "details"}` record, and the `{"error": "Unsupported HTTP
method: ..."}` record. -/
inductive Outcome where
  | body : Json → Outcome
  | success : Outcome
  | permissionRequest : String → String → Option Params → Option JsonData → String → Outcome
  | httpError : String → String → Outcome
  | unsupportedMethod : String → Outcome
deriving DecidableEq

deriving instance DecidableEq for Except

/-- Result of one dispatcher invocation: the returned outcome or the
uncaught exception, together with the final state. -/
abbrev RunResult := Except PyExn Outcome × St

/-- Embedding of `get_auth_token`: performs the n-th login exchange; any
failure of the exchange is re-raised as `ValueError(f"Error getting token: {e}")`.
The state records the network event and advances the login counter. -/
def get_auth_token (ctx : Ctx) (st : St) : Except PyExn String × St :=
  let st1 : St := { st with loginCount := st.loginCount + 1, events := st.events ++ [Ev.login] }
  match ctx.login st.loginCount with
  | Except.ok tok => (Except.ok tok, st1)
  | Except.error e => (Except.error (PyExn.valueError ("Error getting token: " ++ e)), st1)

/-- One httpx request: performs the n-th transport call; a connection-level
failure is raised as an exception, otherwise the status and body are
returned.  The state records the network event and advances the counter. -/
def callTransport (ctx : Ctx) (st : St) : Except PyExn (Nat × Json) × St :=
  let st1 : St := { st with transportCount := st.transportCount + 1,
                            events := st.events ++ [Ev.transportCall] }
  match ctx.transport st.transportCount with
  | TransportResult.response status body => (Except.ok (status, body), st1)
  | TransportResult.connError msg => (Except.error (PyExn.connectError msg), st1)

/-- Embedding of `response.raise_for_status()`: raises `HTTPStatusError`
carrying the response unless the status is 2xx. -/
def raise_for_status (status : Nat) (body : Json) : Except PyExn Unit :=
  if 200 ≤ status ∧ status < 300 then Except.ok ()
  else Except.error (PyExn.httpStatusError status body)

/-- Embedding of the `if not auth_token: auth_token = get_auth_token(...)`
block.  It runs outside any try/except, so a login failure propagates. -/
def ensureToken (ctx : Ctx) (st : St) : Except PyExn Unit × St :=
  if tokenFalsy st.token then
    match get_auth_token ctx st with
    | (Except.ok tok, st1) => (Except.ok (), { st1 with token := some tok })
    | (Except.error e, st1) => (Except.error e, st1)
  else (Except.ok (), st)

/-- Python try/except semantics: the handler runs only on exceptions raised
by the body; an exception raised inside the handler itself propagates. -/
def pyTry (body : St → RunResult) (handler : PyExn → St → RunResult) (st : St) : RunResult :=
  match body st with
  | (Except.ok v, st1) => (Except.ok v, st1)
  | (Except.error e, st1) => handler e st1

/-- The `operation_descriptions` dict lookup with its f-string default. -/
def operation_descriptions (method : String) : String :=
  if method = "POST" then "create or add new data"
  else if method = "PUT" then "update existing data"
  else if method = "DELETE" then "permanently remove data"
  else "perform a " ++ method ++ " operation"

/-- The `data_info` f-string fragment: empty unless `json_data` is truthy. -/
def data_info (json_data : Option JsonData) : String :=
  if jsonDataTruthy json_data then
    ", data: " ++ pyReprDict (json_data.getD [])
  else ""

/-- The `message` field of the permission-request dictionary. -/
def permission_message (method endpoint : String) (json_data : Option JsonData) : String :=
  "This operation will " ++ (operation_descriptions method ++
    (" in ThingsBoard (endpoint: " ++ (endpoint ++
      (data_info json_data ++ "). Do you want to proceed?"))))

/-- Shared tail of every successful transport exchange: `raise_for_status`,
then the 204 no-content check, then the decoded body passed through. -/
def classify (status : Nat) (body : Json) (st : St) : RunResult :=
  match raise_for_status status body with
  | Except.error e => (Except.error e, st)
  | Except.ok _ =>
    if status = 204 then (Except.ok Outcome.success, st)
    else (Except.ok (Outcome.body body), st)

/-- The GET send sequence: one transport call, `raise_for_status`, 204
check, decoded body.  It is both the try-block of the GET branch and,
verbatim, the retry block inside its 401 handler (the source repeats the
same four statements in both places). -/
def getTryBody (ctx : Ctx) (st : St) : RunResult :=
  match callTransport ctx st with
  | (Except.error e, st1) => (Except.error e, st1)
  | (Except.ok (status, body), st1) => classify status body st1

/-- The except-handlers of the GET branch.  On a 401 `HTTPStatusError` the
token is refreshed and the send sequence repeated once, all inside the
handler, so a login failure, a connection failure on the retry, or a
non-2xx retry status is raised uncaught.  Any other exception becomes the
error dictionary. -/
def getHandler (ctx : Ctx) (e : PyExn) (st : St) : RunResult :=
  match e with
  | PyExn.httpStatusError 401 _ =>
    match get_auth_token ctx st with
    | (Except.error e1, st1) => (Except.error e1, st1)
    | (Except.ok tok, st1) => getTryBody ctx { st1 with token := some tok }
  | _ => (Except.ok (Outcome.httpError "Unable to get data from ThingsBoard" (exnStr e)), st)

/-- The try-block of the confirmed non-GET branch: dispatch on the method
(anything outside POST/PUT/DELETE returns the unsupported-method record
without a transport call), then `raise_for_status`, 204 check, body. -/
def mutTryBody (ctx : Ctx) (method : String) (st : St) : RunResult :=
  if method = "POST" ∨ method = "PUT" ∨ method = "DELETE" then
    match callTransport ctx st with
    | (Except.error e, st1) => (Except.error e, st1)
    | (Except.ok (status, body), st1) => classify status body st1
  else
    (Except.ok (Outcome.unsupportedMethod ("Unsupported HTTP method: " ++ method)), st)

/-- The retry block of the non-GET 401 handler: re-dispatch on the method
for POST/PUT/DELETE; for any other method the local `response` variable
still holds the first (401) response, so the following `raise_for_status`
re-raises it.  Unreachable for other methods in practice, since the first
send already returned the unsupported-method record. -/
def mutRetrySend (ctx : Ctx) (method : String) (body401 : Json) (st : St) : RunResult :=
  match (if method = "POST" ∨ method = "PUT" ∨ method = "DELETE" then
           callTransport ctx st
         else (Except.ok (401, body401), st)) with
  | (Except.error e1, st3) => (Except.error e1, st3)
  | (Except.ok (status, body), st3) => classify status body st3

/-- The except-handlers of the confirmed non-GET branch.  On a 401 the
token is refreshed and the send repeated once, all inside the handler, so
exceptions raised there propagate uncaught; any other exception becomes
the error dictionary. -/
def mutHandler (ctx : Ctx) (method : String) (e : PyExn) (st : St) : RunResult :=
  match e with
  | PyExn.httpStatusError 401 body401 =>
    match get_auth_token ctx st with
    | (Except.error e1, st1) => (Except.error e1, st1)
    | (Except.ok tok, st1) => mutRetrySend ctx method body401 { st1 with token := some tok }
  | _ => (Except.ok (Outcome.httpError
           ("Unable to " ++ strToLower method ++ " data from ThingsBoard") (exnStr e)), st)

/-- Embedding of `make_thingsboard_request(endpoint, method, params,
json_data, permission_granted)` run against the global token `token0` and
environment `ctx`.  GET requests skip the permission check entirely; other
methods return the permission-request dictionary unless
`permission_granted`; otherwise the token is lazily acquired and the
transport invoked with a single 401-triggered refresh-and-retry. -/
def make_thingsboard_request (endpoint method : String) (params : Option Params)
    (json_data : Option JsonData) (permission_granted : Bool)
    (token0 : Option String) (ctx : Ctx) : RunResult :=
  let st0 : St := { token := token0, loginCount := 0, transportCount := 0, events := [] }
  if method = "GET" then
    match ensureToken ctx st0 with
    | (Except.error e, st1) => (Except.error e, st1)
    | (Except.ok _, st1) => pyTry (getTryBody ctx) (getHandler ctx) st1
  else if permission_granted = false then
    (Except.ok (Outcome.permissionRequest method endpoint params json_data
      (permission_message method endpoint json_data)), st0)
  else
    match ensureToken ctx st0 with
    | (Except.error e, st1) => (Except.error e, st1)
    | (Except.ok _, st1) => pyTry (mutTryBody ctx method) (mutHandler ctx method) st1

/-- Embedding of `execute_with_permission`: forwards to
`make_thingsboard_request` with `permission_granted=True`. -/
def execute_with_permission (method endpoint : String) (params : Option Params)
    (json_data : Option JsonData) (token0 : Option String) (ctx : Ctx) : RunResult :=
  make_thingsboard_request endpoint method params json_data true token0 ctx

/-- String containment: `sub` occurs contiguously inside `s`. -/
def containsStr (s sub : String) : Prop :=
  ∃ a b, s = a ++ (sub ++ b)

/-- Outcome-shape test: is the result a returned permission request. -/
def isPermissionRequest : Except PyExn Outcome → Bool
  | Except.ok (Outcome.permissionRequest _ _ _ _ _) => true
  | _ => false

/-- Result-shape test: did the invocation return (rather than raise). -/
def isReturned : Except PyExn Outcome → Bool
  | Except.ok _ => true
  | Except.error _ => false

/-- Stub environment for concrete witnesses: every login exchange yields the
token "tok" and every transport call answers 200 with a small body. -/
def ctxOk : Ctx :=
  { login := fun _ => Except.ok "tok",
    transport := fun _ => TransportResult.response 200 (Json.str "ok") }

/-- Stub environment whose login exchange always fails. -/
def ctxLoginFail : Ctx :=
  { login := fun _ => Except.error "boom",
    transport := fun _ => TransportResult.response 200 (Json.str "ok") }

/-- Stub environment answering 401 to the first transport call and 200 to
every later one; logins yield the token "tok2". -/
def ctx401Then200 : Ctx :=
  { login := fun _ => Except.ok "tok2",
    transport := fun n => if n = 0 then TransportResult.response 401 Json.null
                          else TransportResult.response 200 (Json.str "ok") }

/-- Stub environment answering 401 to every transport call. -/
def ctx401 : Ctx :=
  { login := fun _ => Except.ok "tok2",
    transport := fun _ => TransportResult.response 401 Json.null }

/-- Stub environment answering 204 to every transport call. -/
def ctx204 : Ctx :=
  { login := fun _ => Except.ok "tok2",
    transport := fun _ => TransportResult.response 204 Json.null }

/-- Stub environment answering 500 to every transport call. -/
def ctx500 : Ctx :=
  { login := fun _ => Except.ok "tok2",
    transport := fun _ => TransportResult.response 500 Json.null }

/-- Stub environment whose transport always fails at the connection level. -/
def ctxConnFail : Ctx :=
  { login := fun _ => Except.ok "tok2",
    transport := fun _ => TransportResult.connError "conn refused" }

/-- Sanity check of the connection-failure path on a concrete run: the
first-call `ConnectError` of an authenticated GET is caught and returned
as the error dictionary carrying its detail string. -/
theorem connError_first_call_error_dict :
    (make_thingsboard_request "device/abc" "GET" none none false (some "t") ctxConnFail).1
      = Except.ok (Outcome.httpError "Unable to get data from ThingsBoard" "conn refused") := by
  rfl

/-- One transport call leaves a deterministic state: counter bumped and the
event appended, whatever the response was. -/
theorem callTransport_state (ctx : Ctx) (st : St) :
    (callTransport ctx st).2
      = { st with transportCount := st.transportCount + 1,
                  events := st.events ++ [Ev.transportCall] } := by
  unfold callTransport
  split <;> rfl

/-- One login exchange leaves a deterministic state: counter bumped and the
event appended, whatever the exchange returned. -/
theorem get_auth_token_state (ctx : Ctx) (st : St) :
    (get_auth_token ctx st).2
      = { st with loginCount := st.loginCount + 1, events := st.events ++ [Ev.login] } := by
  unfold get_auth_token
  split <;> rfl

/-- Classifying a response never changes the state. -/
theorem classify_state (status : Nat) (body : Json) (st : St) :
    (classify status body st).2 = st := by
  unfold classify
  split
  · rfl
  · split <;> rfl

/-- Classifying a response never yields a permission request. -/
theorem classify_not_permission (status : Nat) (body : Json) (st : St) :
    isPermissionRequest (classify status body st).1 = false := by
  unfold classify
  split
  · rfl
  · split <;> rfl

/-- The GET try-block's final state is that of its single transport call. -/
theorem getTryBody_state (ctx : Ctx) (st : St) :
    (getTryBody ctx st).2 = (callTransport ctx st).2 := by
  unfold getTryBody
  rcases h : callTransport ctx st with ⟨o, st1⟩
  cases o with
  | ok sb =>
      rcases sb with ⟨status, body⟩
      simp only [h, classify_state]
  | error e => simp only [h]

/-- The GET try-block never yields a permission request. -/
theorem getTryBody_not_permission (ctx : Ctx) (st : St) :
    isPermissionRequest (getTryBody ctx st).1 = false := by
  unfold getTryBody
  rcases h : callTransport ctx st with ⟨o, st1⟩
  cases o with
  | ok sb =>
      rcases sb with ⟨status, body⟩
      simp only [h, classify_not_permission]
  | error e => simp only [h]; rfl

/-- The GET send sequence only appends the transport event. -/
theorem getTryBody_events (ctx : Ctx) (st : St) :
    (getTryBody ctx st).2.events = st.events ++ [Ev.transportCall] := by
  rw [getTryBody_state, callTransport_state]

/-- The GET except-handlers only extend the event trace. -/
theorem getHandler_events (ctx : Ctx) (e : PyExn) (st : St) :
    ∃ t, (getHandler ctx e st).2.events = st.events ++ t := by
  unfold getHandler
  split
  · split
    · rename_i e1 st1 heq
      refine ⟨[Ev.login], ?_⟩
      have h3 := get_auth_token_state ctx st
      rw [heq] at h3
      simp at h3
      simp [h3]
    · rename_i tok st1 heq
      have h3 := get_auth_token_state ctx st
      rw [heq] at h3
      simp at h3
      refine ⟨[Ev.login, Ev.transportCall], ?_⟩
      rw [getTryBody_events]
      simp [h3]
  · exact ⟨[], by simp⟩

/-- The GET except-handlers never yield a permission request. -/
theorem getHandler_not_permission (ctx : Ctx) (e : PyExn) (st : St) :
    isPermissionRequest (getHandler ctx e st).1 = false := by
  unfold getHandler
  split
  · rcases h : get_auth_token ctx st with ⟨o, st1⟩
    cases o with
    | error e1 => simp only [h]; rfl
    | ok tok => simp only [h, getTryBody_not_permission]
  · rfl

/-- The whole GET try/except after the transport is reached: the event
trace grows by the first transport event and possibly more, and the result
is never a permission request. -/
theorem getPyTry_events (ctx : Ctx) (st : St) :
    ∃ t, (pyTry (getTryBody ctx) (getHandler ctx) st).2.events
      = st.events ++ (Ev.transportCall :: t) := by
  unfold pyTry
  split
  · rename_i v st1 heq
    refine ⟨[], ?_⟩
    have h3 : st1 = { st with transportCount := st.transportCount + 1,
                              events := st.events ++ [Ev.transportCall] } := by
      have h4 := getTryBody_state ctx st
      rw [heq] at h4
      simpa [callTransport_state] using h4
    simp [h3]
  · rename_i e st1 heq
    have h3 : st1 = { st with transportCount := st.transportCount + 1,
                              events := st.events ++ [Ev.transportCall] } := by
      have h4 := getTryBody_state ctx st
      rw [heq] at h4
      simpa [callTransport_state] using h4
    rcases getHandler_events ctx e st1 with ⟨t, ht⟩
    refine ⟨t, ?_⟩
    rw [ht, h3]
    simp [List.append_assoc]

/-- The GET try/except never yields a permission request. -/
theorem getPyTry_not_permission (ctx : Ctx) (st : St) :
    isPermissionRequest (pyTry (getTryBody ctx) (getHandler ctx) st).1 = false := by
  unfold pyTry
  rcases h : getTryBody ctx st with ⟨o, st1⟩
  cases o with
  | ok v =>
      have h1 := getTryBody_not_permission ctx st
      rw [h] at h1
      simpa using h1
  | error e => exact getHandler_not_permission ctx e st1

/-- With a truthy token already held, ensureToken is a no-op. -/
theorem ensureToken_held (ctx : Ctx) (st : St) (h : tokenFalsy st.token = false) :
    ensureToken ctx st = (Except.ok (), st) := by
  unfold ensureToken
  simp [h]

/-- With no usable token, ensureToken records exactly one login event. -/
theorem ensureToken_events (ctx : Ctx) (st : St) (h : tokenFalsy st.token = true) :
    (ensureToken ctx st).2.events = st.events ++ [Ev.login] := by
  unfold ensureToken
  rw [h]
  simp only [if_true]
  split
  · rename_i tok st1 heq
    have h3 := get_auth_token_state ctx st
    rw [heq] at h3
    simp at h3
    simp [h3]
  · rename_i e st1 heq
    have h3 := get_auth_token_state ctx st
    rw [heq] at h3
    simp at h3
    simp [h3]

/-- The GET branch of the dispatcher, written out. -/
theorem dispatch_get_eq (endpoint : String) (params : Option Params)
    (json_data : Option JsonData) (pg : Bool) (token0 : Option String) (ctx : Ctx) :
    make_thingsboard_request endpoint "GET" params json_data pg token0 ctx
      = match ensureToken ctx
          { token := token0, loginCount := 0, transportCount := 0, events := [] } with
        | (Except.error e, st1) => (Except.error e, st1)
        | (Except.ok _, st1) => pyTry (getTryBody ctx) (getHandler ctx) st1 := rfl

/-- Equation: a login exchange whose n-th result is a token. -/
theorem get_auth_token_ok (ctx : Ctx) (st : St) (tok : String)
    (h : ctx.login st.loginCount = Except.ok tok) :
    get_auth_token ctx st = (Except.ok tok,
      { st with loginCount := st.loginCount + 1, events := st.events ++ [Ev.login] }) := by
  unfold get_auth_token
  rw [h]

/-- Equation: a login exchange whose n-th attempt fails with detail d. -/
theorem get_auth_token_error (ctx : Ctx) (st : St) (d : String)
    (h : ctx.login st.loginCount = Except.error d) :
    get_auth_token ctx st = (Except.error (PyExn.valueError ("Error getting token: " ++ d)),
      { st with loginCount := st.loginCount + 1, events := st.events ++ [Ev.login] }) := by
  unfold get_auth_token
  rw [h]

/-- Equation: a transport call that gets an HTTP response. -/
theorem callTransport_response (ctx : Ctx) (st : St) (s : Nat) (b : Json)
    (h : ctx.transport st.transportCount = TransportResult.response s b) :
    callTransport ctx st = (Except.ok (s, b),
      { st with transportCount := st.transportCount + 1,
                events := st.events ++ [Ev.transportCall] }) := by
  unfold callTransport
  rw [h]

/-- Equation: a transport call that fails at the connection level. -/
theorem callTransport_connError (ctx : Ctx) (st : St) (m : String)
    (h : ctx.transport st.transportCount = TransportResult.connError m) :
    callTransport ctx st = (Except.error (PyExn.connectError m),
      { st with transportCount := st.transportCount + 1,
                events := st.events ++ [Ev.transportCall] }) := by
  unfold callTransport
  rw [h]

/-- Equation: classifying a 2xx response. -/
theorem classify_2xx (s : Nat) (b : Json) (st : St) (h : 200 ≤ s ∧ s < 300) :
    classify s b st
      = (Except.ok (if s = 204 then Outcome.success else Outcome.body b), st) := by
  unfold classify raise_for_status
  rw [if_pos h]
  by_cases h3 : s = 204
  · simp [h3]
  · simp [h3]

/-- Equation: classifying a non-2xx response raises `HTTPStatusError`. -/
theorem classify_err (s : Nat) (b : Json) (st : St) (h : ¬(200 ≤ s ∧ s < 300)) :
    classify s b st = (Except.error (PyExn.httpStatusError s b), st) := by
  unfold classify raise_for_status
  rw [if_neg h]

/-- Equation: a try whose body returns normally. -/
theorem pyTry_ok (body : St → RunResult) (handler : PyExn → St → RunResult)
    (st st1 : St) (v : Outcome) (h : body st = (Except.ok v, st1)) :
    pyTry body handler st = (Except.ok v, st1) := by
  unfold pyTry
  rw [h]

/-- Equation: a try whose body raises runs the handlers on the raised
exception, from the state the body left behind. -/
theorem pyTry_error (body : St → RunResult) (handler : PyExn → St → RunResult)
    (st st1 : St) (e : PyExn) (h : body st = (Except.error e, st1)) :
    pyTry body handler st = handler e st1 := by
  unfold pyTry
  rw [h]

/-- Equation: the GET send against a transport that answers an HTTP
response. -/
theorem getTryBody_response (ctx : Ctx) (st : St) (s : Nat) (b : Json)
    (h : ctx.transport st.transportCount = TransportResult.response s b) :
    getTryBody ctx st = classify s b
      { st with transportCount := st.transportCount + 1,
                events := st.events ++ [Ev.transportCall] } := by
  unfold getTryBody
  rw [callTransport_response ctx st s b h]

/-- Equation: the GET send against a transport that fails at the
connection level raises the `ConnectError` out of the send. -/
theorem getTryBody_connError (ctx : Ctx) (st : St) (m : String)
    (h : ctx.transport st.transportCount = TransportResult.connError m) :
    getTryBody ctx st = (Except.error (PyExn.connectError m),
      { st with transportCount := st.transportCount + 1,
                events := st.events ++ [Ev.transportCall] }) := by
  unfold getTryBody
  rw [callTransport_connError ctx st m h]

/-- Equation: the non-GET send for a supported method against a transport
that answers an HTTP response. -/
theorem mutTryBody_response (ctx : Ctx) (method : String) (st : St) (s : Nat) (b : Json)
    (hs : method = "POST" ∨ method = "PUT" ∨ method = "DELETE")
    (h : ctx.transport st.transportCount = TransportResult.response s b) :
    mutTryBody ctx method st = classify s b
      { st with transportCount := st.transportCount + 1,
                events := st.events ++ [Ev.transportCall] } := by
  unfold mutTryBody
  rw [if_pos hs, callTransport_response ctx st s b h]

/-- Equation: the non-GET send for a supported method against a transport
that fails at the connection level raises the `ConnectError` out of the
send. -/
theorem mutTryBody_connError (ctx : Ctx) (method : String) (st : St) (m : String)
    (hs : method = "POST" ∨ method = "PUT" ∨ method = "DELETE")
    (h : ctx.transport st.transportCount = TransportResult.connError m) :
    mutTryBody ctx method st = (Except.error (PyExn.connectError m),
      { st with transportCount := st.transportCount + 1,
                events := st.events ++ [Ev.transportCall] }) := by
  unfold mutTryBody
  rw [if_pos hs, callTransport_connError ctx st m h]

/-- Equation: the non-GET send for an unsupported method returns the
unsupported-method record without touching the transport. -/
theorem mutTryBody_unsupported (ctx : Ctx) (method : String) (st : St)
    (hs : ¬(method = "POST" ∨ method = "PUT" ∨ method = "DELETE")) :
    mutTryBody ctx method st
      = (Except.ok (Outcome.unsupportedMethod ("Unsupported HTTP method: " ++ method)), st) := by
  unfold mutTryBody
  rw [if_neg hs]

/-- Equation: the GET 401 handler when the refresh login succeeds repeats
the send with the new token. -/
theorem getHandler_401_login_ok (ctx : Ctx) (st : St) (b401 : Json) (tok : String)
    (hl : ctx.login st.loginCount = Except.ok tok) :
    getHandler ctx (PyExn.httpStatusError 401 b401) st
      = getTryBody ctx { st with token := some tok, loginCount := st.loginCount + 1,
                                 events := st.events ++ [Ev.login] } := by
  unfold getHandler
  rw [get_auth_token_ok ctx st tok hl]

/-- Equation: the GET 401 handler when the refresh login fails propagates
the `ValueError` uncaught. -/
theorem getHandler_401_login_error (ctx : Ctx) (st : St) (b401 : Json) (d : String)
    (hl : ctx.login st.loginCount = Except.error d) :
    getHandler ctx (PyExn.httpStatusError 401 b401) st
      = (Except.error (PyExn.valueError ("Error getting token: " ++ d)),
         { st with loginCount := st.loginCount + 1, events := st.events ++ [Ev.login] }) := by
  unfold getHandler
  rw [get_auth_token_error ctx st d hl]

/-- Equation: the non-GET 401 handler when the refresh login succeeds
repeats the send with the new token. -/
theorem mutHandler_401_login_ok (ctx : Ctx) (method : String) (st : St)
    (b401 : Json) (tok : String) (hl : ctx.login st.loginCount = Except.ok tok) :
    mutHandler ctx method (PyExn.httpStatusError 401 b401) st
      = mutRetrySend ctx method b401
          { st with token := some tok, loginCount := st.loginCount + 1,
                    events := st.events ++ [Ev.login] } := by
  unfold mutHandler
  rw [get_auth_token_ok ctx st tok hl]

/-- Equation: the non-GET 401 handler when the refresh login fails
propagates the `ValueError` uncaught. -/
theorem mutHandler_401_login_error (ctx : Ctx) (method : String) (st : St)
    (b401 : Json) (d : String) (hl : ctx.login st.loginCount = Except.error d) :
    mutHandler ctx method (PyExn.httpStatusError 401 b401) st
      = (Except.error (PyExn.valueError ("Error getting token: " ++ d)),
         { st with loginCount := st.loginCount + 1, events := st.events ++ [Ev.login] }) := by
  unfold mutHandler
  rw [get_auth_token_error ctx st d hl]

/-- Equation: the retry send of the non-GET 401 handler for a supported
method, against a transport that answers an HTTP response. -/
theorem mutRetrySend_response (ctx : Ctx) (method : String) (b401 : Json) (st : St)
    (s : Nat) (b : Json)
    (hs : method = "POST" ∨ method = "PUT" ∨ method = "DELETE")
    (h : ctx.transport st.transportCount = TransportResult.response s b) :
    mutRetrySend ctx method b401 st = classify s b
      { st with transportCount := st.transportCount + 1,
                events := st.events ++ [Ev.transportCall] } := by
  unfold mutRetrySend
  rw [if_pos hs, callTransport_response ctx st s b h]

/-- Equation: the GET handler on any exception other than a 401
`HTTPStatusError` returns the error dictionary. -/
theorem getHandler_non401 (ctx : Ctx) (e : PyExn) (st : St)
    (h : ∀ b, e ≠ PyExn.httpStatusError 401 b) :
    getHandler ctx e st
      = (Except.ok (Outcome.httpError "Unable to get data from ThingsBoard" (exnStr e)), st) := by
  unfold getHandler
  split
  · rename_i b401
    exact absurd rfl (h b401)
  · rfl

/-- Equation: the non-GET handler on any exception other than a 401
`HTTPStatusError` returns the error dictionary. -/
theorem mutHandler_non401 (ctx : Ctx) (method : String) (e : PyExn) (st : St)
    (h : ∀ b, e ≠ PyExn.httpStatusError 401 b) :
    mutHandler ctx method e st
      = (Except.ok (Outcome.httpError
          ("Unable to " ++ strToLower method ++ " data from ThingsBoard") (exnStr e)), st) := by
  unfold mutHandler
  split
  · rename_i b401
    exact absurd rfl (h b401)
  · rfl

/-- Equation: ensureToken on a falsy token with a successful login stores
the new token and records the login event. -/
theorem ensureToken_login_ok (ctx : Ctx) (st : St) (tok : String)
    (h : tokenFalsy st.token = true) (hl : ctx.login st.loginCount = Except.ok tok) :
    ensureToken ctx st = (Except.ok (),
      { st with token := some tok, loginCount := st.loginCount + 1,
                events := st.events ++ [Ev.login] }) := by
  unfold ensureToken
  rw [h]
  simp only [if_true]
  rw [get_auth_token_ok ctx st tok hl]

/-- Equation: ensureToken on a falsy token with a failing login raises the
`ValueError` uncaught, after recording the login event. -/
theorem ensureToken_login_error (ctx : Ctx) (st : St) (d : String)
    (h : tokenFalsy st.token = true) (hl : ctx.login st.loginCount = Except.error d) :
    ensureToken ctx st = (Except.error (PyExn.valueError ("Error getting token: " ++ d)),
      { st with loginCount := st.loginCount + 1, events := st.events ++ [Ev.login] }) := by
  unfold ensureToken
  rw [h]
  simp only [if_true]
  rw [get_auth_token_error ctx st d hl]

/-- The confirmed non-GET branch of the dispatcher, written out. -/
theorem dispatch_confirmed_eq (endpoint method : String) (params : Option Params)
    (json_data : Option JsonData) (token0 : Option String) (ctx : Ctx)
    (hGET : method ≠ "GET") :
    make_thingsboard_request endpoint method params json_data true token0 ctx
      = match ensureToken ctx
          { token := token0, loginCount := 0, transportCount := 0, events := [] } with
        | (Except.error e, st1) => (Except.error e, st1)
        | (Except.ok _, st1) => pyTry (mutTryBody ctx method) (mutHandler ctx method) st1 := by
  simp [make_thingsboard_request, hGET]

/-- A GET dispatch with a held token goes straight to the try/except. -/
theorem dispatch_get_held (endpoint : String) (params : Option Params)
    (json_data : Option JsonData) (pg : Bool) (token0 : Option String) (ctx : Ctx)
    (htok : tokenFalsy token0 = false) :
    make_thingsboard_request endpoint "GET" params json_data pg token0 ctx
      = pyTry (getTryBody ctx) (getHandler ctx)
          { token := token0, loginCount := 0, transportCount := 0, events := [] } := by
  rw [dispatch_get_eq, ensureToken_held _ _ htok]

/-- A GET dispatch with no token and a successful lazy login reaches the
try/except with the fresh token and one login event. -/
theorem dispatch_get_login_ok (endpoint : String) (params : Option Params)
    (json_data : Option JsonData) (pg : Bool) (token0 : Option String) (ctx : Ctx)
    (tok : String) (htok : tokenFalsy token0 = true) (hl : ctx.login 0 = Except.ok tok) :
    make_thingsboard_request endpoint "GET" params json_data pg token0 ctx
      = pyTry (getTryBody ctx) (getHandler ctx)
          { token := some tok, loginCount := 1, transportCount := 0,
            events := [Ev.login] } := by
  rw [dispatch_get_eq, ensureToken_login_ok _ _ tok htok hl]
  rfl

/-- A GET dispatch with no token and a failing lazy login raises the
`ValueError` uncaught without reaching the transport. -/
theorem dispatch_get_login_error (endpoint : String) (params : Option Params)
    (json_data : Option JsonData) (pg : Bool) (token0 : Option String) (ctx : Ctx)
    (d : String) (htok : tokenFalsy token0 = true) (hl : ctx.login 0 = Except.error d) :
    make_thingsboard_request endpoint "GET" params json_data pg token0 ctx
      = (Except.error (PyExn.valueError ("Error getting token: " ++ d)),
         { token := token0, loginCount := 1, transportCount := 0,
           events := [Ev.login] }) := by
  rw [dispatch_get_eq, ensureToken_login_error _ _ d htok hl]
  rfl

/-- A confirmed non-GET dispatch with a held token goes straight to the
try/except. -/
theorem dispatch_confirmed_held (endpoint method : String) (params : Option Params)
    (json_data : Option JsonData) (token0 : Option String) (ctx : Ctx)
    (hGET : method ≠ "GET") (htok : tokenFalsy token0 = false) :
    make_thingsboard_request endpoint method params json_data true token0 ctx
      = pyTry (mutTryBody ctx method) (mutHandler ctx method)
          { token := token0, loginCount := 0, transportCount := 0, events := [] } := by
  rw [dispatch_confirmed_eq endpoint method params json_data token0 ctx hGET,
      ensureToken_held _ _ htok]

/-- A confirmed non-GET dispatch with no token and a successful lazy login
reaches the try/except with the fresh token and one login event. -/
theorem dispatch_confirmed_login_ok (endpoint method : String) (params : Option Params)
    (json_data : Option JsonData) (token0 : Option String) (ctx : Ctx) (tok : String)
    (hGET : method ≠ "GET") (htok : tokenFalsy token0 = true)
    (hl : ctx.login 0 = Except.ok tok) :
    make_thingsboard_request endpoint method params json_data true token0 ctx
      = pyTry (mutTryBody ctx method) (mutHandler ctx method)
          { token := some tok, loginCount := 1, transportCount := 0,
            events := [Ev.login] } := by
  rw [dispatch_confirmed_eq endpoint method params json_data token0 ctx hGET,
      ensureToken_login_ok _ _ tok htok hl]
  rfl

/-- A confirmed non-GET dispatch with no token and a failing lazy login
raises the `ValueError` uncaught without reaching the transport. -/
theorem dispatch_confirmed_login_error (endpoint method : String) (params : Option Params)
    (json_data : Option JsonData) (token0 : Option String) (ctx : Ctx) (d : String)
    (hGET : method ≠ "GET") (htok : tokenFalsy token0 = true)
    (hl : ctx.login 0 = Except.error d) :
    make_thingsboard_request endpoint method params json_data true token0 ctx
      = (Except.error (PyExn.valueError ("Error getting token: " ++ d)),
         { token := token0, loginCount := 1, transportCount := 0,
           events := [Ev.login] }) := by
  rw [dispatch_confirmed_eq endpoint method params json_data token0 ctx hGET,
      ensureToken_login_error _ _ d htok hl]
  rfl

/-- Unconfirmed non-GET dispatch: the whole invocation is the permission
request with the inputs echoed, leaving the state untouched. -/
theorem dispatch_unconfirmed (endpoint method : String) (params : Option Params)
    (json_data : Option JsonData) (token0 : Option String) (ctx : Ctx)
    (h : method ≠ "GET") :
    make_thingsboard_request endpoint method params json_data false token0 ctx
      = (Except.ok (Outcome.permissionRequest method endpoint params json_data
          (permission_message method endpoint json_data)),
         { token := token0, loginCount := 0, transportCount := 0, events := [] }) := by
  simp [make_thingsboard_request, h]

/-- C1: for every request with a non-GET method and confirmed=false,
dispatch returns a ConfirmationDescriptor whose method, endpoint, params
and json_data fields are exactly the inputs, performs zero network calls
(empty event trace) and acquires no credential (token unchanged). -/
theorem claim_C1_unconfirmed_descriptor_echo (endpoint method : String)
    (params : Option Params) (json_data : Option JsonData)
    (token0 : Option String) (ctx : Ctx) (h : method ≠ "GET") :
    (make_thingsboard_request endpoint method params json_data false token0 ctx).1
        = Except.ok (Outcome.permissionRequest method endpoint params json_data
            (permission_message method endpoint json_data))
      ∧ (make_thingsboard_request endpoint method params json_data false token0 ctx).2.events = []
      ∧ (make_thingsboard_request endpoint method params json_data false token0 ctx).2.token
          = token0 := by
  rw [dispatch_unconfirmed endpoint method params json_data token0 ctx h]
  exact ⟨rfl, rfl, rfl⟩

/-- Witness for C1 at a concrete DELETE request. -/
theorem claim_C1_witness :
    "DELETE" ≠ "GET"
      ∧ ((make_thingsboard_request "device/abc" "DELETE" none none false none ctxOk).1
          = Except.ok (Outcome.permissionRequest "DELETE" "device/abc" none none
              (permission_message "DELETE" "device/abc" none))
        ∧ (make_thingsboard_request "device/abc" "DELETE" none none false none ctxOk).2.events = []
        ∧ (make_thingsboard_request "device/abc" "DELETE" none none false none ctxOk).2.token
            = none) :=
  ⟨by decide,
   claim_C1_unconfirmed_descriptor_echo "device/abc" "DELETE" none none none ctxOk (by decide)⟩

/-- C6: the confirmed-execution entry point is extensionally equal to the
dispatcher called with permission_granted=true. -/
theorem claim_C6_execute_with_permission_is_confirmed_dispatch
    (method endpoint : String) (params : Option Params) (json_data : Option JsonData)
    (token0 : Option String) (ctx : Ctx) :
    execute_with_permission method endpoint params json_data token0 ctx
      = make_thingsboard_request endpoint method params json_data true token0 ctx := rfl

/-- C9: two unconfirmed dispatches of the same non-GET spec return
structurally identical ConfirmationDescriptors, whatever the credential
state or environment at each call. -/
theorem claim_C9_unconfirmed_idempotent (endpoint method : String)
    (params : Option Params) (json_data : Option JsonData)
    (t1 t2 : Option String) (ctx1 ctx2 : Ctx) (h : method ≠ "GET") :
    (make_thingsboard_request endpoint method params json_data false t1 ctx1).1
      = (make_thingsboard_request endpoint method params json_data false t2 ctx2).1 := by
  rw [dispatch_unconfirmed endpoint method params json_data t1 ctx1 h,
      dispatch_unconfirmed endpoint method params json_data t2 ctx2 h]

/-- Witness for C9: same POST spec dispatched under two different states. -/
theorem claim_C9_witness :
    "POST" ≠ "GET"
      ∧ (make_thingsboard_request "alarm/1/ack" "POST" none none false none ctxOk).1
          = (make_thingsboard_request "alarm/1/ack" "POST" none none false (some "t") ctxOk).1 :=
  ⟨by decide,
   claim_C9_unconfirmed_idempotent "alarm/1/ack" "POST" none none none (some "t")
     ctxOk ctxOk (by decide)⟩

/-- C8: the unconfirmed descriptor's message carries the method-specific
effect description, the three fixed phrases map to POST, PUT and DELETE, any
other method gets the generic phrasing, and the concrete DELETE scenario on
device/abc yields the echoing descriptor whose message contains
"permanently remove data". -/
theorem claim_C8_descriptor_message (endpoint method : String)
    (params : Option Params) (json_data : Option JsonData)
    (token0 : Option String) (ctx : Ctx) (h : method ≠ "GET") :
    ((make_thingsboard_request endpoint method params json_data false token0 ctx).1
        = Except.ok (Outcome.permissionRequest method endpoint params json_data
            (permission_message method endpoint json_data))
      ∧ containsStr (permission_message method endpoint json_data)
          (operation_descriptions method))
      ∧ (operation_descriptions "POST" = "create or add new data"
        ∧ operation_descriptions "PUT" = "update existing data"
        ∧ operation_descriptions "DELETE" = "permanently remove data")
      ∧ (method ≠ "POST" → method ≠ "PUT" → method ≠ "DELETE" →
          operation_descriptions method = "perform a " ++ method ++ " operation")
      ∧ ((make_thingsboard_request "device/abc" "DELETE" none none false token0 ctx).1
          = Except.ok (Outcome.permissionRequest "DELETE" "device/abc" none none
              (permission_message "DELETE" "device/abc" none))
        ∧ containsStr (permission_message "DELETE" "device/abc" none)
            "permanently remove data") := by
  refine ⟨⟨?_, ?_⟩, ⟨rfl, rfl, rfl⟩, ?_, ?_, ?_⟩
  · rw [dispatch_unconfirmed endpoint method params json_data token0 ctx h]
  · exact ⟨"This operation will ",
      " in ThingsBoard (endpoint: " ++ (endpoint ++
        (data_info json_data ++ "). Do you want to proceed?")), rfl⟩
  · intro h1 h2 h3
    simp [operation_descriptions, h1, h2, h3]
  · rw [dispatch_unconfirmed "device/abc" "DELETE" none none token0 ctx (by decide)]
  · exact ⟨"This operation will ",
      " in ThingsBoard (endpoint: device/abc). Do you want to proceed?", by decide⟩

/-- C4: a GET dispatch is independent of the confirmed flag, never returns
a ConfirmationDescriptor, and proceeds directly to credential acquisition
and the transport call: its first network event is the login exchange when
no token is held, and the transport call otherwise. -/
theorem claim_C4_get_skips_mutation_gate (endpoint : String) (params : Option Params)
    (json_data : Option JsonData) (pg : Bool) (token0 : Option String) (ctx : Ctx) :
    make_thingsboard_request endpoint "GET" params json_data pg token0 ctx
        = make_thingsboard_request endpoint "GET" params json_data true token0 ctx
      ∧ isPermissionRequest
          (make_thingsboard_request endpoint "GET" params json_data pg token0 ctx).1 = false
      ∧ ∃ t, (make_thingsboard_request endpoint "GET" params json_data pg token0 ctx).2.events
          = (if tokenFalsy token0 = true then Ev.login :: t else Ev.transportCall :: t) := by
  refine ⟨rfl, ?_, ?_⟩
  · rw [dispatch_get_eq]
    split
    · rfl
    · rename_i u st1 heq
      exact getPyTry_not_permission ctx st1
  · by_cases h : tokenFalsy token0 = true
    · rw [dispatch_get_eq]
      simp only [h, if_true]
      split
      · rename_i e st1 heq
        refine ⟨[], ?_⟩
        have h4 := ensureToken_events ctx
          { token := token0, loginCount := 0, transportCount := 0, events := [] } (by simpa using h)
        rw [heq] at h4
        simpa using h4
      · rename_i u st1 heq
        have h4 := ensureToken_events ctx
          { token := token0, loginCount := 0, transportCount := 0, events := [] } (by simpa using h)
        rw [heq] at h4
        simp at h4
        rcases getPyTry_events ctx st1 with ⟨t, ht⟩
        rw [h4] at ht
        exact ⟨Ev.transportCall :: t, by simpa using ht⟩
    · rw [dispatch_get_eq]
      simp only [h, if_false]
      have hf : tokenFalsy token0 = false := by
        cases h2 : tokenFalsy token0
        · rfl
        · exact absurd h2 h
      rw [ensureToken_held ctx
        { token := token0, loginCount := 0, transportCount := 0, events := [] } (by simpa using hf)]
      rcases getPyTry_events ctx
        { token := token0, loginCount := 0, transportCount := 0, events := [] } with ⟨t, ht⟩
      exact ⟨t, by simpa using ht⟩

/-- Witness for C8 at a concrete PATCH request (generic phrasing branch). -/
theorem claim_C8_witness :
    "PATCH" ≠ "GET"
      ∧ (((make_thingsboard_request "device/abc" "PATCH" none none false none ctxOk).1
          = Except.ok (Outcome.permissionRequest "PATCH" "device/abc" none none
              (permission_message "PATCH" "device/abc" none))
        ∧ containsStr (permission_message "PATCH" "device/abc" none)
            (operation_descriptions "PATCH"))
      ∧ (operation_descriptions "POST" = "create or add new data"
        ∧ operation_descriptions "PUT" = "update existing data"
        ∧ operation_descriptions "DELETE" = "permanently remove data")
      ∧ ("PATCH" ≠ "POST" → "PATCH" ≠ "PUT" → "PATCH" ≠ "DELETE" →
          operation_descriptions "PATCH" = "perform a " ++ "PATCH" ++ " operation")
      ∧ ((make_thingsboard_request "device/abc" "DELETE" none none false none ctxOk).1
          = Except.ok (Outcome.permissionRequest "DELETE" "device/abc" none none
              (permission_message "DELETE" "device/abc" none))
        ∧ containsStr (permission_message "DELETE" "device/abc" none)
            "permanently remove data")) :=
  ⟨by decide, claim_C8_descriptor_message "device/abc" "PATCH" none none none ctxOk (by decide)⟩

/-- C7: a transport response with status 204 yields the synthetic success
marker, never the pass-through of a decoded body, whether the token was
already held or lazily acquired. -/
theorem claim_C7_204_success (endpoint method : String) (params : Option Params)
    (json_data : Option JsonData) (token0 : Option String) (ctx : Ctx) (b : Json)
    (tok : String)
    (hm : method = "GET" ∨ method = "POST" ∨ method = "PUT" ∨ method = "DELETE")
    (hauth : tokenFalsy token0 = false
      ∨ (tokenFalsy token0 = true ∧ ctx.login 0 = Except.ok tok))
    (hresp : ctx.transport 0 = TransportResult.response 204 b) :
    (make_thingsboard_request endpoint method params json_data true token0 ctx).1
        = Except.ok Outcome.success
      ∧ ∀ v, (make_thingsboard_request endpoint method params json_data true token0 ctx).1
          ≠ Except.ok (Outcome.body v) := by
  have h2 : 200 ≤ (204 : Nat) ∧ (204 : Nat) < 300 := by omega
  have key1 : (make_thingsboard_request endpoint method params json_data true token0 ctx).1
      = Except.ok Outcome.success := by
    rcases hm with h | hs3
    · subst h
      rcases hauth with htok | ⟨htok, hl⟩
      · rw [dispatch_get_held _ _ _ _ _ _ htok]
        have hbody : getTryBody ctx
            { token := token0, loginCount := 0, transportCount := 0, events := [] }
          = (Except.ok Outcome.success,
             { token := token0, loginCount := 0, transportCount := 1,
               events := [Ev.transportCall] }) := by
          rw [getTryBody_response ctx _ 204 b hresp, classify_2xx 204 b _ h2]
          rfl
        rw [pyTry_ok _ _ _ _ _ hbody]
      · rw [dispatch_get_login_ok _ _ _ _ _ _ tok htok hl]
        have hbody : getTryBody ctx
            { token := some tok, loginCount := 1, transportCount := 0, events := [Ev.login] }
          = (Except.ok Outcome.success,
             { token := some tok, loginCount := 1, transportCount := 1,
               events := [Ev.login, Ev.transportCall] }) := by
          rw [getTryBody_response ctx _ 204 b hresp, classify_2xx 204 b _ h2]
          rfl
        rw [pyTry_ok _ _ _ _ _ hbody]
    · have hGET : method ≠ "GET" := by
        rcases hs3 with h | h | h <;> (subst h; decide)
      rcases hauth with htok | ⟨htok, hl⟩
      · rw [dispatch_confirmed_held endpoint method params json_data token0 ctx hGET htok]
        have hbody : mutTryBody ctx method
            { token := token0, loginCount := 0, transportCount := 0, events := [] }
          = (Except.ok Outcome.success,
             { token := token0, loginCount := 0, transportCount := 1,
               events := [Ev.transportCall] }) := by
          rw [mutTryBody_response ctx method _ 204 b hs3 hresp, classify_2xx 204 b _ h2]
          rfl
        rw [pyTry_ok _ _ _ _ _ hbody]
      · rw [dispatch_confirmed_login_ok endpoint method params json_data token0 ctx tok
          hGET htok hl]
        have hbody : mutTryBody ctx method
            { token := some tok, loginCount := 1, transportCount := 0, events := [Ev.login] }
          = (Except.ok Outcome.success,
             { token := some tok, loginCount := 1, transportCount := 1,
               events := [Ev.login, Ev.transportCall] }) := by
          rw [mutTryBody_response ctx method _ 204 b hs3 hresp, classify_2xx 204 b _ h2]
          rfl
        rw [pyTry_ok _ _ _ _ _ hbody]
  refine ⟨key1, ?_⟩
  intro v
  rw [key1]
  simp

/-- Witness for C7: a POST against a 204-answering stub transport. -/
theorem claim_C7_witness :
    (("POST" : String) = "GET" ∨ ("POST" : String) = "POST"
        ∨ ("POST" : String) = "PUT" ∨ ("POST" : String) = "DELETE")
      ∧ (tokenFalsy (some "t") = false
        ∨ (tokenFalsy (some "t") = true ∧ ctx204.login 0 = Except.ok "x"))
      ∧ ctx204.transport 0 = TransportResult.response 204 Json.null
      ∧ ((make_thingsboard_request "device/abc" "POST" none none true (some "t") ctx204).1
          = Except.ok Outcome.success
        ∧ ∀ v, (make_thingsboard_request "device/abc" "POST" none none true (some "t") ctx204).1
            ≠ Except.ok (Outcome.body v)) :=
  ⟨by decide, by decide, by decide,
   claim_C7_204_success "device/abc" "POST" none none (some "t") ctx204 Json.null "x"
     (by decide) (by decide) (by decide)⟩

/-- C5: when the transport answers 401 first and a 2xx second, dispatch
returns the success Outcome; the event trace shows the login refresh
happening exactly once, strictly between the two transport calls, and the
global token ends up replaced by the refreshed one. -/
theorem claim_C5_401_refresh_retry (endpoint method : String) (params : Option Params)
    (json_data : Option JsonData) (token0 : Option String) (ctx : Ctx)
    (b1 : Json) (tok2 : String) (s2 : Nat) (b2 : Json)
    (hm : method = "GET" ∨ method = "POST" ∨ method = "PUT" ∨ method = "DELETE")
    (htok : tokenFalsy token0 = false)
    (hresp1 : ctx.transport 0 = TransportResult.response 401 b1)
    (hl : ctx.login 0 = Except.ok tok2)
    (hresp2 : ctx.transport 1 = TransportResult.response s2 b2)
    (h2 : 200 ≤ s2 ∧ s2 < 300) :
    make_thingsboard_request endpoint method params json_data true token0 ctx
      = (Except.ok (if s2 = 204 then Outcome.success else Outcome.body b2),
         { token := some tok2, loginCount := 1, transportCount := 2,
           events := [Ev.transportCall, Ev.login, Ev.transportCall] }) := by
  have h401 : ¬(200 ≤ (401 : Nat) ∧ (401 : Nat) < 300) := by omega
  rcases hm with h | hs3
  · subst h
    rw [dispatch_get_held _ _ _ _ _ _ htok]
    have hbody : getTryBody ctx
        { token := token0, loginCount := 0, transportCount := 0, events := [] }
      = (Except.error (PyExn.httpStatusError 401 b1),
         { token := token0, loginCount := 0, transportCount := 1,
           events := [Ev.transportCall] }) := by
      rw [getTryBody_response ctx _ 401 b1 hresp1, classify_err 401 b1 _ h401]
      rfl
    rw [pyTry_error _ _ _ _ _ hbody]
    rw [getHandler_401_login_ok ctx _ b1 tok2 hl]
    rw [getTryBody_response ctx _ s2 b2 hresp2, classify_2xx s2 b2 _ h2]
    rfl
  · have hGET : method ≠ "GET" := by
      rcases hs3 with h | h | h <;> (subst h; decide)
    rw [dispatch_confirmed_held endpoint method params json_data token0 ctx hGET htok]
    have hbody : mutTryBody ctx method
        { token := token0, loginCount := 0, transportCount := 0, events := [] }
      = (Except.error (PyExn.httpStatusError 401 b1),
         { token := token0, loginCount := 0, transportCount := 1,
           events := [Ev.transportCall] }) := by
      rw [mutTryBody_response ctx method _ 401 b1 hs3 hresp1, classify_err 401 b1 _ h401]
      rfl
    rw [pyTry_error _ _ _ _ _ hbody]
    rw [mutHandler_401_login_ok ctx method _ b1 tok2 hl]
    rw [mutRetrySend_response ctx method b1 _ s2 b2 hs3 hresp2, classify_2xx s2 b2 _ h2]
    rfl

/-- Witness for C5: a GET against the 401-then-200 stub transport. -/
theorem claim_C5_witness :
    (("GET" : String) = "GET" ∨ ("GET" : String) = "POST"
        ∨ ("GET" : String) = "PUT" ∨ ("GET" : String) = "DELETE")
      ∧ tokenFalsy (some "t") = false
      ∧ ctx401Then200.transport 0 = TransportResult.response 401 Json.null
      ∧ ctx401Then200.login 0 = Except.ok "tok2"
      ∧ ctx401Then200.transport 1 = TransportResult.response 200 (Json.str "ok")
      ∧ (200 ≤ 200 ∧ 200 < 300)
      ∧ make_thingsboard_request "device/abc" "GET" none none true (some "t") ctx401Then200
          = (Except.ok (if 200 = 204 then Outcome.success else Outcome.body (Json.str "ok")),
             { token := some "tok2", loginCount := 1, transportCount := 2,
               events := [Ev.transportCall, Ev.login, Ev.transportCall] }) :=
  ⟨by decide, by decide, by decide, by decide, by decide, by decide,
   claim_C5_401_refresh_retry "device/abc" "GET" none none (some "t") ctx401Then200
     Json.null "tok2" 200 (Json.str "ok") (by decide) (by decide) (by decide) (by decide)
     (by decide) (by decide)⟩

/-- Counterexample to C3 as stated: after two 401 responses the dispatcher
does not return any Outcome — the second `HTTPStatusError` propagates as an
uncaught exception — although exactly two transport calls were made. -/
theorem claim_C3_counterexample :
    isReturned (make_thingsboard_request "device/abc" "GET" none none false
        (some "t") ctx401).1 = false
      ∧ (make_thingsboard_request "device/abc" "GET" none none false
          (some "t") ctx401).2.transportCount = 2 := by
  constructor
  · rfl
  · rfl

/-- C3 amended: when the transport answers 401 to both the first call and
the retry, dispatch stops after exactly two transport invocations, but the
second 401 propagates as an uncaught `HTTPStatusError` instead of being
converted to a structured error Outcome. -/
theorem claim_C3_two_transports_then_raise (endpoint method : String)
    (params : Option Params) (json_data : Option JsonData) (token0 : Option String)
    (ctx : Ctx) (b1 : Json) (tok2 : String) (s2 : Nat) (b2 : Json)
    (hm : method = "GET" ∨ method = "POST" ∨ method = "PUT" ∨ method = "DELETE")
    (htok : tokenFalsy token0 = false)
    (hresp1 : ctx.transport 0 = TransportResult.response 401 b1)
    (hl : ctx.login 0 = Except.ok tok2)
    (hresp2 : ctx.transport 1 = TransportResult.response s2 b2)
    (hn2 : ¬(200 ≤ s2 ∧ s2 < 300)) :
    make_thingsboard_request endpoint method params json_data true token0 ctx
        = (Except.error (PyExn.httpStatusError s2 b2),
           { token := some tok2, loginCount := 1, transportCount := 2,
             events := [Ev.transportCall, Ev.login, Ev.transportCall] })
      ∧ isReturned
          (make_thingsboard_request endpoint method params json_data true token0 ctx).1
          = false := by
  have h401 : ¬(200 ≤ (401 : Nat) ∧ (401 : Nat) < 300) := by omega
  have key : make_thingsboard_request endpoint method params json_data true token0 ctx
      = (Except.error (PyExn.httpStatusError s2 b2),
         { token := some tok2, loginCount := 1, transportCount := 2,
           events := [Ev.transportCall, Ev.login, Ev.transportCall] }) := by
    rcases hm with h | hs3
    · subst h
      rw [dispatch_get_held _ _ _ _ _ _ htok]
      have hbody : getTryBody ctx
          { token := token0, loginCount := 0, transportCount := 0, events := [] }
        = (Except.error (PyExn.httpStatusError 401 b1),
           { token := token0, loginCount := 0, transportCount := 1,
             events := [Ev.transportCall] }) := by
        rw [getTryBody_response ctx _ 401 b1 hresp1, classify_err 401 b1 _ h401]
        rfl
      rw [pyTry_error _ _ _ _ _ hbody]
      rw [getHandler_401_login_ok ctx _ b1 tok2 hl]
      rw [getTryBody_response ctx _ s2 b2 hresp2, classify_err s2 b2 _ hn2]
      rfl
    · have hGET : method ≠ "GET" := by
        rcases hs3 with h | h | h <;> (subst h; decide)
      rw [dispatch_confirmed_held endpoint method params json_data token0 ctx hGET htok]
      have hbody : mutTryBody ctx method
          { token := token0, loginCount := 0, transportCount := 0, events := [] }
        = (Except.error (PyExn.httpStatusError 401 b1),
           { token := token0, loginCount := 0, transportCount := 1,
             events := [Ev.transportCall] }) := by
        rw [mutTryBody_response ctx method _ 401 b1 hs3 hresp1, classify_err 401 b1 _ h401]
        rfl
      rw [pyTry_error _ _ _ _ _ hbody]
      rw [mutHandler_401_login_ok ctx method _ b1 tok2 hl]
      rw [mutRetrySend_response ctx method b1 _ s2 b2 hs3 hresp2, classify_err s2 b2 _ hn2]
      rfl
  rw [key]
  exact ⟨rfl, rfl⟩

/-- Witness for the amended C3: a GET against the always-401 stub. -/
theorem claim_C3_witness :
    (("GET" : String) = "GET" ∨ ("GET" : String) = "POST"
        ∨ ("GET" : String) = "PUT" ∨ ("GET" : String) = "DELETE")
      ∧ tokenFalsy (some "t") = false
      ∧ ctx401.transport 0 = TransportResult.response 401 Json.null
      ∧ ctx401.login 0 = Except.ok "tok2"
      ∧ ctx401.transport 1 = TransportResult.response 401 Json.null
      ∧ ¬(200 ≤ 401 ∧ 401 < 300)
      ∧ (make_thingsboard_request "device/abc" "GET" none none true (some "t") ctx401
          = (Except.error (PyExn.httpStatusError 401 Json.null),
             { token := some "tok2", loginCount := 1, transportCount := 2,
               events := [Ev.transportCall, Ev.login, Ev.transportCall] })
        ∧ isReturned (make_thingsboard_request "device/abc" "GET" none none true
            (some "t") ctx401).1 = false) :=
  ⟨by decide, by decide, by decide, by decide, by decide, by decide,
   claim_C3_two_transports_then_raise "device/abc" "GET" none none (some "t") ctx401
     Json.null "tok2" 401 Json.null (by decide) (by decide) (by decide) (by decide)
     (by decide) (by decide)⟩

/-- Counterexample to C2 as stated: when the lazy login exchange fails, the
dispatcher raises the `ValueError` uncaught instead of returning a
structured error Outcome. -/
theorem claim_C2_counterexample :
    (make_thingsboard_request "device/abc" "GET" none none false none ctxLoginFail).1
        = Except.error (PyExn.valueError "Error getting token: boom")
      ∧ isReturned (make_thingsboard_request "device/abc" "GET" none none false
          none ctxLoginFail).1 = false := by
  constructor
  · rfl
  · rfl

/-- C2 amended: every failure of the first transport call of an
authenticated request that is not a 401 — a non-2xx HTTP status as well as
a connection-level failure — is caught and returned as the structured
error dictionary; failures of the login exchange itself propagate as
exceptions (see the counterexample). -/
theorem claim_C2_structured_error_non401 (endpoint method : String)
    (params : Option Params) (json_data : Option JsonData) (token0 : Option String)
    (ctx : Ctx)
    (hm : method = "GET" ∨ method = "POST" ∨ method = "PUT" ∨ method = "DELETE")
    (htok : tokenFalsy token0 = false) :
    (∀ s b, ctx.transport 0 = TransportResult.response s b →
        ¬(200 ≤ s ∧ s < 300) → s ≠ 401 →
        make_thingsboard_request endpoint method params json_data true token0 ctx
          = (Except.ok (Outcome.httpError
               ("Unable to " ++ strToLower method ++ " data from ThingsBoard")
               (exnStr (PyExn.httpStatusError s b))),
             { token := token0, loginCount := 0, transportCount := 1,
               events := [Ev.transportCall] }))
      ∧ (∀ m, ctx.transport 0 = TransportResult.connError m →
          make_thingsboard_request endpoint method params json_data true token0 ctx
            = (Except.ok (Outcome.httpError
                 ("Unable to " ++ strToLower method ++ " data from ThingsBoard")
                 (exnStr (PyExn.connectError m))),
               { token := token0, loginCount := 0, transportCount := 1,
                 events := [Ev.transportCall] })) := by
  constructor
  · intro s b hresp hn h401
    have hne : ∀ b2, PyExn.httpStatusError s b ≠ PyExn.httpStatusError 401 b2 := by
      intro b2 hc
      injection hc with h1 h2
      exact h401 h1
    rcases hm with h | hs3
    · subst h
      rw [dispatch_get_held _ _ _ _ _ _ htok]
      have hbody : getTryBody ctx
          { token := token0, loginCount := 0, transportCount := 0, events := [] }
        = (Except.error (PyExn.httpStatusError s b),
           { token := token0, loginCount := 0, transportCount := 1,
             events := [Ev.transportCall] }) := by
        rw [getTryBody_response ctx _ s b hresp, classify_err s b _ hn]
        rfl
      rw [pyTry_error _ _ _ _ _ hbody]
      rw [getHandler_non401 ctx _ _ hne]
      have hmsg : ("Unable to " ++ strToLower "GET" ++ " data from ThingsBoard")
          = "Unable to get data from ThingsBoard" := by decide
      rw [hmsg]
    · have hGET : method ≠ "GET" := by
        rcases hs3 with h | h | h <;> (subst h; decide)
      rw [dispatch_confirmed_held endpoint method params json_data token0 ctx hGET htok]
      have hbody : mutTryBody ctx method
          { token := token0, loginCount := 0, transportCount := 0, events := [] }
        = (Except.error (PyExn.httpStatusError s b),
           { token := token0, loginCount := 0, transportCount := 1,
             events := [Ev.transportCall] }) := by
        rw [mutTryBody_response ctx method _ s b hs3 hresp, classify_err s b _ hn]
        rfl
      rw [pyTry_error _ _ _ _ _ hbody]
      rw [mutHandler_non401 ctx method _ _ hne]
  · intro m hresp
    have hne : ∀ b2, PyExn.connectError m ≠ PyExn.httpStatusError 401 b2 := by
      intro b2 hc
      cases hc
    rcases hm with h | hs3
    · subst h
      rw [dispatch_get_held _ _ _ _ _ _ htok]
      have hbody : getTryBody ctx
          { token := token0, loginCount := 0, transportCount := 0, events := [] }
        = (Except.error (PyExn.connectError m),
           { token := token0, loginCount := 0, transportCount := 1,
             events := [Ev.transportCall] }) := by
        rw [getTryBody_connError ctx _ m hresp]
        rfl
      rw [pyTry_error _ _ _ _ _ hbody]
      rw [getHandler_non401 ctx _ _ hne]
      have hmsg : ("Unable to " ++ strToLower "GET" ++ " data from ThingsBoard")
          = "Unable to get data from ThingsBoard" := by decide
      rw [hmsg]
    · have hGET : method ≠ "GET" := by
        rcases hs3 with h | h | h <;> (subst h; decide)
      rw [dispatch_confirmed_held endpoint method params json_data token0 ctx hGET htok]
      have hbody : mutTryBody ctx method
          { token := token0, loginCount := 0, transportCount := 0, events := [] }
        = (Except.error (PyExn.connectError m),
           { token := token0, loginCount := 0, transportCount := 1,
             events := [Ev.transportCall] }) := by
        rw [mutTryBody_connError ctx method _ m hs3 hresp]
        rfl
      rw [pyTry_error _ _ _ _ _ hbody]
      rw [mutHandler_non401 ctx method _ _ hne]

/-- Witness for the amended C2: a PUT against the always-500 stub, with
both conjuncts of the conclusion instantiated there. -/
theorem claim_C2_witness :
    (("PUT" : String) = "GET" ∨ ("PUT" : String) = "POST"
        ∨ ("PUT" : String) = "PUT" ∨ ("PUT" : String) = "DELETE")
      ∧ tokenFalsy (some "t") = false
      ∧ ((∀ s b, ctx500.transport 0 = TransportResult.response s b →
            ¬(200 ≤ s ∧ s < 300) → s ≠ 401 →
            make_thingsboard_request "device/abc" "PUT" none none true (some "t") ctx500
              = (Except.ok (Outcome.httpError
                   ("Unable to " ++ strToLower "PUT" ++ " data from ThingsBoard")
                   (exnStr (PyExn.httpStatusError s b))),
                 { token := some "t", loginCount := 0, transportCount := 1,
                   events := [Ev.transportCall] }))
        ∧ (∀ m, ctx500.transport 0 = TransportResult.connError m →
            make_thingsboard_request "device/abc" "PUT" none none true (some "t") ctx500
              = (Except.ok (Outcome.httpError
                   ("Unable to " ++ strToLower "PUT" ++ " data from ThingsBoard")
                   (exnStr (PyExn.connectError m))),
                 { token := some "t", loginCount := 0, transportCount := 1,
                   events := [Ev.transportCall] }))) :=
  ⟨by decide, by decide,
   claim_C2_structured_error_non401 "device/abc" "PUT" none none (some "t") ctx500
     (by decide) (by decide)⟩

/-- Counterexample to C10 as stated: dispatching the lowercase method "get"
with permission granted and no token held does return the
unsupported-method error, but only after a login exchange — a network
call — has already been performed. -/
theorem claim_C10_counterexample :
    (make_thingsboard_request "alarm/1/comment" "get" none none true none ctxOk).1
        = Except.ok (Outcome.unsupportedMethod "Unsupported HTTP method: get")
      ∧ (make_thingsboard_request "alarm/1/comment" "get" none none true none ctxOk).2.events
          = [Ev.login] := by
  constructor
  · rfl
  · rfl

/-- C10 amended: the method check is case-sensitive, so any method not
exactly "GET" (lowercase "get" included) is gated: unconfirmed it yields
the permission request; confirmed, a method outside POST/PUT/DELETE yields
the unsupported-method record with no transport call — though when no
token is held the lazy login exchange still runs first. -/
theorem claim_C10_case_sensitive_method (endpoint method : String)
    (params : Option Params) (json_data : Option JsonData) (token0 : Option String)
    (ctx : Ctx) (hGET : method ≠ "GET")
    (hsup : ¬(method = "POST" ∨ method = "PUT" ∨ method = "DELETE")) :
    (make_thingsboard_request endpoint method params json_data false token0 ctx).1
        = Except.ok (Outcome.permissionRequest method endpoint params json_data
            (permission_message method endpoint json_data))
      ∧ (tokenFalsy token0 = false →
          make_thingsboard_request endpoint method params json_data true token0 ctx
            = (Except.ok (Outcome.unsupportedMethod ("Unsupported HTTP method: " ++ method)),
               { token := token0, loginCount := 0, transportCount := 0, events := [] }))
      ∧ (∀ tok, tokenFalsy token0 = true → ctx.login 0 = Except.ok tok →
          make_thingsboard_request endpoint method params json_data true token0 ctx
            = (Except.ok (Outcome.unsupportedMethod ("Unsupported HTTP method: " ++ method)),
               { token := some tok, loginCount := 1, transportCount := 0,
                 events := [Ev.login] })) := by
  refine ⟨?_, ?_, ?_⟩
  · rw [dispatch_unconfirmed endpoint method params json_data token0 ctx hGET]
  · intro htok
    rw [dispatch_confirmed_held endpoint method params json_data token0 ctx hGET htok]
    rw [pyTry_ok _ _ _ _ _ (mutTryBody_unsupported ctx method _ hsup)]
  · intro tok htok hl
    rw [dispatch_confirmed_login_ok endpoint method params json_data token0 ctx tok hGET htok hl]
    rw [pyTry_ok _ _ _ _ _ (mutTryBody_unsupported ctx method _ hsup)]

/-- Witness for the amended C10, at the lowercase method "get" that the
alarm-comment wrapper passes. -/
theorem claim_C10_witness :
    ("get" : String) ≠ "GET"
      ∧ ¬(("get" : String) = "POST" ∨ ("get" : String) = "PUT" ∨ ("get" : String) = "DELETE")
      ∧ ((make_thingsboard_request "alarm/1/comment" "get" none none false none ctxOk).1
          = Except.ok (Outcome.permissionRequest "get" "alarm/1/comment" none none
              (permission_message "get" "alarm/1/comment" none))
        ∧ (tokenFalsy (none : Option String) = false →
            make_thingsboard_request "alarm/1/comment" "get" none none true none ctxOk
              = (Except.ok (Outcome.unsupportedMethod "Unsupported HTTP method: get"),
                 { token := none, loginCount := 0, transportCount := 0, events := [] }))
        ∧ (∀ tok, tokenFalsy (none : Option String) = true → ctxOk.login 0 = Except.ok tok →
            make_thingsboard_request "alarm/1/comment" "get" none none true none ctxOk
              = (Except.ok (Outcome.unsupportedMethod "Unsupported HTTP method: get"),
                 { token := some tok, loginCount := 1, transportCount := 0,
                   events := [Ev.login] }))) :=
  ⟨by decide, by decide,
   claim_C10_case_sensitive_method "alarm/1/comment" "get" none none none ctxOk
     (by decide) (by decide)⟩

end TB
